import Mathlib

/-!
Shallow embedding of `src/index.ts` (airtop-ai/recipe-prompt-content).

The source is a single orchestration script `run()` that
  1. builds an Airtop client from the `AIRTOP_API_KEY` environment variable,
  2. reads an optional profile id from stdin,
  3. creates a remote browser session (`timeoutMinutes: 10`,
     `persistProfile: true`, `baseProfileId: profileId`),
  4. requires `cdpWsUrl` in the response (else throws `Unable to get cdp url`),
  5. connects puppeteer to that endpoint with a `Bearer` auth header,
  6. opens a page, navigates to the login URL, fetches window info,
  7. issues the login-check page query, `JSON.parse`s the model response,
     throws if the parsed `error` field is truthy, otherwise branches on the
     truthiness of the parsed `isLoggedIn` field,
  8. when not logged in: prints the live-view URL and waits for a stdin
     signal, then prints the session profile id,
  9. navigates to the target URL and issues the extraction page query with
     `followPaginationLinks: true`, `JSON.parse`s and prints the response
     (no check of its `error` field),
 10. closes the browser, terminates the session, calls `process.exit(0)`;
     any thrown error is logged, rethrown, and `run().catch` calls
     `process.exit(1)`.

The embedding is a deterministic function `run : Env → List Event × Outcome`.
`Env` supplies the outcome of every external interaction (stdin contents and
the success/failure of each remote call, with model responses given as
already-parsed JSON values, `none` standing for a response `JSON.parse`
rejects). `Event` records, in order, the remote calls issued and the
operator-facing actions taken; `Outcome` is the process exit status.
Console logging that carries no workflow data is not modelled.
JS numbers are modelled as `Int` (no claim involves non-integral numbers or
`NaN`), and the messages of `JSON.parse` syntax errors and of the `TypeError`
raised by property access on `null` are modelled by fixed placeholder
strings (no claim mentions their text).
-/

/-- JSON values, as produced by `JSON.parse` (so no `undefined`). -/
inductive JsValue where
  | null
  | bool (b : Bool)
  | num (n : Int)
  | str (s : String)
  | arr (elems : List JsValue)
  | obj (fields : List (String × JsValue))
deriving Repr

/-- JS property access `v[k]` on a parsed JSON value, for values on which it
does not throw: on an object it returns the last binding of the key (as
`JSON.parse` keeps the last duplicate), on non-objects it returns
`undefined`, modelled as `none`.  Access on `null` throws in JS and is
handled separately at the call site. -/
def jsGet : JsValue → String → Option JsValue
  | JsValue.obj fields, k =>
      fields.foldl (fun acc p => if p.1 = k then some p.2 else acc) none
  | _, _ => none

/-- JS truthiness of a parsed JSON value. -/
def jsTruthy : JsValue → Bool
  | JsValue.null => false
  | JsValue.bool b => b
  | JsValue.num n => !(n == 0)
  | JsValue.str s => !(s == "")
  | JsValue.arr _ => true
  | JsValue.obj _ => true

/-- JS truthiness of a property-access result (`undefined` is falsy). -/
def jsTruthyOpt : Option JsValue → Bool
  | none => false
  | some v => jsTruthy v

mutual
/-- The JS `String(v)` coercion applied by `new Error(v)` to a parsed JSON
value: arrays join their elements with commas (a `null` element becomes the
empty string), objects print as `[object Object]`. -/
def jsStringOf : JsValue → String
  | JsValue.null => "null"
  | JsValue.bool b => cond b "true" "false"
  | JsValue.num n => toString n
  | JsValue.str s => s
  | JsValue.arr elems => String.intercalate "," (jsStringList elems)
  | JsValue.obj _ => "[object Object]"

/-- Element-wise coercion used by the JS array-to-string join. -/
def jsStringList : List JsValue → List String
  | [] => []
  | JsValue.null :: rest => "" :: jsStringList rest
  | v :: rest => jsStringOf v :: jsStringList rest
end

/-- `String(v)` for a property-access result; a truthy result is never
`undefined`, so the `undefined` case is unreachable where this is used. -/
def jsStringOfOpt : Option JsValue → String
  | none => "undefined"
  | some v => jsStringOf v

/-- Source `src/index.ts` line 7: the profile page used for the login check. -/
def LOGIN_URL : String := "https://www.glassdoor.com/member/profile"

/-- Source `src/index.ts` lines 8-24: the login-check prompt (verbatim). -/
def IS_LOGGED_IN_PROMPT : String :=
  "This browser is open to a page that either display\x27s a user\x27s Glassdoor profile or prompts the user to login.  Please give me a JSON response matching the schema below.\n\n\x7b\n  \"$schema\": \"http://json-schema.org/draft-07/schema#\",\n  \"type\": \"object\",\n  \"properties\": \x7b\n    \"isLoggedIn\": \x7b\n      \"type\": \"boolean\",\n      \"description\": \"Use this field to indicate whether the user is logged in.\"\n    \x7d,\n    \"error\": \x7b\n      \"type\": \"string\",\n      \"description\": \"If you cannot fulfill the request, use this field to report the problem.\"\n    \x7d\n  \x7d\n\x7d\n"

/-- Source `src/index.ts` line 25: the job-listing page for extraction. -/
def TARGET_URL : String :=
  "https://www.glassdoor.com/Job/san-francisco-ca-software-engineer-jobs-SRCH_IL.0,16_IC1147401_KO17,34.htm"

/-- The natural-language part of the extraction prompt (`src/index.ts`
lines 26-29), up to where the JSON schema text starts. -/
def EXTRACT_PROMPT_INTRO : String :=
  "This browser is open to a page that lists available job roles for software engineers in San Francisco. Please provide 10 job roles that appear to be posted by the AI-related companies.\n\nReport your results using the JSON schema below.\n\n"

/-- The output-schema contract embedded in the extraction prompt
(`src/index.ts` lines 30-71, verbatim, including the unquoted `jobTitle`
key present in the source). -/
def EXTRACT_OUTPUT_SCHEMA : String :=
  "\x7b\n  \"$schema\": \"http://json-schema.org/draft-07/schema#\",\n  \"type\": \"object\",\n  \"properties\": \x7b\n    \"companies\": \x7b\n      \"type\": \"array\",\n      \"items\": \x7b\n        \"type\": \"object\",\n        \"properties\": \x7b\n          \"companyName\": \x7b\n            \"type\": \"string\"\n          \x7d,\n          jobTitle: \x7b\n            \"type\": \"string\"\n          \x7d,\n          \"location\": \x7b\n            \"type\": \"string\"\n          \x7d,\n          \"salary\": \x7b\n            \"type\": \"object\",\n            \"properties\": \x7b\n              \"min\": \x7b\n                \"type\": \"number\",\n                \"minimum\": 0\n              \x7d,\n              \"max\": \x7b\n                \"type\": \"number\",\n                \"minimum\": 0\n              \x7d\n            \x7d,\n            \"required\": [\"min\", \"max\"]\n          \x7d\n        \x7d,\n        \"required\": [\"companyName\", \"jobTitle\", \"location\", \"salary\"]\n      \x7d\n    \x7d,\n    \"error\": \x7b\n      \"type\": \"string\",\n      \"description\": \"If you cannot fulfill the request, use this field to report the problem.\"\n    \x7d\n  \x7d\n\x7d\n"

/-- Source `src/index.ts` lines 26-72: the extraction prompt, intro followed by the
schema text and the closing newline of the template literal. -/
def EXTRACT_DATA_PROMPT : String :=
  EXTRACT_PROMPT_INTRO ++ EXTRACT_OUTPUT_SCHEMA

/-- The session configuration sent by `client.sessions.create`
(`src/index.ts` lines 87-93). -/
structure SessionConfig where
  timeoutMinutes : Nat
  persistProfile : Bool
  baseProfileId : Option String
deriving DecidableEq, Repr

/-- The fields of `createSessionResponse.data` the script reads
(`src/index.ts` lines 95-103, 138, 156). -/
structure SessionData where
  id : String
  profileId : Option String
  cdpWsUrl : Option String
deriving DecidableEq, Repr

/-- The fields of `windowInfo.data` the script reads
(`src/index.ts` lines 125, 136, 140). -/
structure WindowData where
  windowId : String
  liveViewUrl : String
deriving DecidableEq, Repr

/-- One external interaction issued by the script, in program order:
remote calls carry the data the script sends; operator-facing actions carry
the data the script surfaces. -/
inductive Event where
  | createSessionCall (cfg : SessionConfig)
  | connectCall (cdpUrl : String) (authHeader : String)
  | newPageCall
  | gotoCall (url : String)
  | getWindowInfoCall (disableResize : Bool)
  | promptContentCall (sessionId : String) (windowId : String)
      (prompt : String) (followPaginationLinks : Option Bool)
  | surfaceLiveView (liveViewUrl : String)
  | awaitHumanSignal
  | printSessionProfileId (profileId : Option String)
  | logAlreadyLoggedIn (liveViewUrl : String)
  | printExtractionResponse
  | browserCloseCall
  | terminateCall (sessionId : String)
deriving DecidableEq, Repr

/-- Process exit status: `success` is `process.exit(0)` (line 158),
`failure` is a thrown error, logged and rethrown by the `catch` (lines
159-168) into `run().catch`, which calls `process.exit(1)` (lines 171-173).
The carried string is the error message. -/
inductive Outcome where
  | success
  | failure (message : String)
deriving DecidableEq, Repr

/-- The process exit code determined by an `Outcome`. -/
def exitCode : Outcome → Nat
  | Outcome.success => 0
  | Outcome.failure _ => 1

/-- All external interactions of one invocation of `run`, as the script
observes them.  `Except.error` models the awaited call rejecting with the
given message.  For the two page queries, `Except.ok none` models a model
response that `JSON.parse` rejects, and `Except.ok (some v)` a response
parsing to `v`. -/
structure Env where
  apiKey : Option String
  stdinInput : String
  createSession : Except String SessionData
  connect : Except String Unit
  newPage : Except String Unit
  gotoLogin : Except String Unit
  windowInfo : Except String WindowData
  loginCheckCall : Except String (Option JsValue)
  gotoTarget : Except String Unit
  extractCall : Except String (Option JsValue)
  browserClose : Except String Unit
  terminate : Except String Unit

/-- Whitespace removed by the JS `trim()` (restricted to the ASCII
whitespace characters; no claim involves exotic whitespace). -/
def isJsWhitespace (c : Char) : Bool :=
  c == ' ' || c == '\t' || c == '\n' || c == '\r' || c == '\x0b' || c == '\x0c'

/-- The JS `input.toString().trim()` of `src/index.ts` line 82, modelled
structurally over the character list. -/
def jsTrim (s : String) : String :=
  String.mk
    (((s.data.dropWhile isJsWhitespace).reverse.dropWhile
        isJsWhitespace).reverse)

/-- Source `src/index.ts` lines 79-85: the trimmed stdin line, with the empty
string coerced to `undefined` by `trimmedInput || undefined`. -/
def parsedProfileInput (input : String) : Option String :=
  if jsTrim input = "" then none else some (jsTrim input)

/-- The configuration `run` passes to `client.sessions.create`
(`src/index.ts` lines 87-93): `timeoutMinutes: 10`, `persistProfile: true`,
`baseProfileId: profileId`. -/
def sessionConfigOf (env : Env) : SessionConfig :=
  { timeoutMinutes := 10
    persistProfile := true
    baseProfileId := parsedProfileInput env.stdinInput }

/-- The `Authorization` header of the puppeteer connection
(`src/index.ts` line 107): the template literal interpolates an absent key
as the string `undefined`, and the `|| \x27\x27` fallback never applies because
the template is non-empty. -/
def authHeader : Option String → String
  | some k => "Bearer " ++ k
  | none => "Bearer undefined"

/-- Placeholder message of the `SyntaxError` thrown by `JSON.parse` on a
malformed model response. -/
def jsonParseFailureMessage : String := "SyntaxError: JSON.parse"

/-- Placeholder message of the `TypeError` thrown by reading a property of
a `null` parsed response (`parsedResponse.error` at line 129). -/
def nullAccessFailureMessage : String :=
  "TypeError: Cannot read properties of null"

/-- Source `src/index.ts` lines 154-158: close the browser, terminate the session,
then `process.exit(0)`.  Each awaited call may reject; a rejection
propagates to the `catch` and the process exits 1. -/
def cleanup (env : Env) (sessionId : String) : List Event × Outcome :=
  match env.browserClose with
  | Except.error e => ([Event.browserCloseCall], Outcome.failure e)
  | Except.ok _ =>
    match env.terminate with
    | Except.error e =>
        ([Event.browserCloseCall, Event.terminateCall sessionId],
         Outcome.failure e)
    | Except.ok _ =>
        ([Event.browserCloseCall, Event.terminateCall sessionId],
         Outcome.success)

/-- Source `src/index.ts` lines 143-158: navigate to the target URL, issue the
extraction page query with `followPaginationLinks: true`, `JSON.parse` and
print the model response (its parsed `error` field is not inspected), then
clean up. -/
def extractionPhase (env : Env) (session : SessionData) (w : WindowData) :
    List Event × Outcome :=
  match env.gotoTarget with
  | Except.error e => ([Event.gotoCall TARGET_URL], Outcome.failure e)
  | Except.ok _ =>
    let tq := [Event.gotoCall TARGET_URL,
               Event.promptContentCall session.id w.windowId
                 EXTRACT_DATA_PROMPT (some true)]
    match env.extractCall with
    | Except.error e => (tq, Outcome.failure e)
    | Except.ok none => (tq, Outcome.failure jsonParseFailureMessage)
    | Except.ok (some _) =>
        (tq ++ [Event.printExtractionResponse] ++ (cleanup env session.id).1,
         (cleanup env session.id).2)

/-- Source `src/index.ts` lines 134-141: when the parsed `isLoggedIn` is falsy,
surface the live-view URL, suspend until a stdin signal, then print the
session profile id; otherwise log the live-view URL only.  Either way the
flow then proceeds to the extraction phase. -/
def handoffPhase (env : Env) (session : SessionData) (w : WindowData)
    (isUserLoggedIn : Bool) : List Event × Outcome :=
  let gate :=
    if isUserLoggedIn then [Event.logAlreadyLoggedIn w.liveViewUrl]
    else [Event.surfaceLiveView w.liveViewUrl, Event.awaitHumanSignal,
          Event.printSessionProfileId session.profileId]
  (gate ++ (extractionPhase env session w).1, (extractionPhase env session w).2)

/-- Source `src/index.ts` lines 123-141: issue the login-check page query,
`JSON.parse` its model response, throw the parsed `error` field when it is
truthy (`if (parsedResponse.error) throw new Error(parsedResponse.error)`),
otherwise branch on the truthiness of `parsedResponse.isLoggedIn`.
Property access on a `null` parsed response throws a `TypeError`. -/
def loginCheckPhase (env : Env) (session : SessionData) (w : WindowData) :
    List Event × Outcome :=
  let tq := [Event.promptContentCall session.id w.windowId
               IS_LOGGED_IN_PROMPT none]
  match env.loginCheckCall with
  | Except.error e => (tq, Outcome.failure e)
  | Except.ok none => (tq, Outcome.failure jsonParseFailureMessage)
  | Except.ok (some JsValue.null) =>
      (tq, Outcome.failure nullAccessFailureMessage)
  | Except.ok (some parsed) =>
    if jsTruthyOpt (jsGet parsed "error") then
      (tq, Outcome.failure (jsStringOfOpt (jsGet parsed "error")))
    else
      (tq ++ (handoffPhase env session w
                (jsTruthyOpt (jsGet parsed "isLoggedIn"))).1,
       (handoffPhase env session w
          (jsTruthyOpt (jsGet parsed "isLoggedIn"))).2)

/-- Source `src/index.ts` lines 112-121: open a page, navigate to the login URL,
fetch window info with `disableResize: true`, then run the login check. -/
def windowPhase (env : Env) (session : SessionData) : List Event × Outcome :=
  match env.newPage with
  | Except.error e => ([Event.newPageCall], Outcome.failure e)
  | Except.ok _ =>
    match env.gotoLogin with
    | Except.error e =>
        ([Event.newPageCall, Event.gotoCall LOGIN_URL], Outcome.failure e)
    | Except.ok _ =>
      let t := [Event.newPageCall, Event.gotoCall LOGIN_URL,
                Event.getWindowInfoCall true]
      match env.windowInfo with
      | Except.error e => (t, Outcome.failure e)
      | Except.ok w =>
          (t ++ (loginCheckPhase env session w).1,
           (loginCheckPhase env session w).2)

/-- Source `src/index.ts` lines 102-110: connect puppeteer to the cdp endpoint with
the `Bearer` auth header, then run the window phase. -/
def connectPhase (env : Env) (session : SessionData) (cdpUrl : String) :
    List Event × Outcome :=
  let tc := [Event.connectCall cdpUrl (authHeader env.apiKey)]
  match env.connect with
  | Except.error e => (tc, Outcome.failure e)
  | Except.ok _ =>
      (tc ++ (windowPhase env session).1, (windowPhase env session).2)

/-- Source `src/index.ts` lines 74-168 with the `run().catch` of lines 171-173:
the whole orchestration.  Reads the optional profile id from stdin, always
requests session creation with the configuration of `sessionConfigOf`,
throws `Unable to get cdp url` when the response has no `cdpWsUrl`, and
otherwise proceeds through the connect, window, login-check, handoff,
extraction and cleanup phases.  No check of `AIRTOP_API_KEY` is performed
anywhere. -/
def run (env : Env) : List Event × Outcome :=
  let t0 := [Event.createSessionCall (sessionConfigOf env)]
  match env.createSession with
  | Except.error e => (t0, Outcome.failure e)
  | Except.ok session =>
    match session.cdpWsUrl with
    | none => (t0, Outcome.failure "Unable to get cdp url")
    | some cdpUrl =>
        (t0 ++ (connectPhase env session cdpUrl).1,
         (connectPhase env session cdpUrl).2)

/-- Event classifier: is this the `browser.close()` call? -/
def isBrowserCloseEvent : Event → Bool
  | Event.browserCloseCall => true
  | _ => false

/-- Event classifier: is this the `sessions.terminate` call? -/
def isTerminateEvent : Event → Bool
  | Event.terminateCall _ => true
  | _ => false

/-- Whether an awaited external call resolved rather than rejected. -/
def isOkB {α : Type} : Except String α → Bool
  | Except.ok _ => true
  | Except.error _ => false

/-- Whether the run gets past session creation, the `cdpWsUrl` check,
the puppeteer connection, page opening, login navigation and the window
info fetch, i.e. reaches the login-check page query. -/
def reachesLoginCheck (env : Env) : Bool :=
  (match env.createSession with
   | Except.ok s => s.cdpWsUrl.isSome
   | Except.error _ => false)
  && isOkB env.connect && isOkB env.newPage && isOkB env.gotoLogin
  && isOkB env.windowInfo

/-- Whether the login-check response parses to a non-`null` value whose
`error` field is falsy, so the run continues past line 131. -/
def loginChecksOut (env : Env) : Bool :=
  match env.loginCheckCall with
  | Except.ok (some JsValue.null) => false
  | Except.ok (some v) => !(jsTruthyOpt (jsGet v "error"))
  | _ => false

/-- Whether the login check succeeds and its parsed `isLoggedIn` field is
falsy, so the human-handoff branch of line 135 runs. -/
def handoffTaken (env : Env) : Bool :=
  match env.loginCheckCall with
  | Except.ok (some JsValue.null) => false
  | Except.ok (some v) =>
      !(jsTruthyOpt (jsGet v "error")) && !(jsTruthyOpt (jsGet v "isLoggedIn"))
  | _ => false

/-- Whether the extraction response parses (`JSON.parse` succeeds). -/
def extractParses (env : Env) : Bool :=
  match env.extractCall with
  | Except.ok (some _) => true
  | _ => false

/-- Whether the run reaches the clean-up block of lines 154-158: every
stage up to and including parsing the extraction response succeeded. -/
def reachesCleanup (env : Env) : Bool :=
  reachesLoginCheck env && loginChecksOut env && isOkB env.gotoTarget
  && extractParses env

/-- A session response carrying all fields, for concrete runs. -/
def sessionA : SessionData :=
  { id := "sess-1", profileId := some "profile-stored",
    cdpWsUrl := some "wss://cdp.example" }

/-- A session response with no `cdpWsUrl`, for provisioning failures. -/
def sessionNoCdp : SessionData :=
  { id := "sess-2", profileId := none, cdpWsUrl := none }

/-- A window-info response, for concrete runs. -/
def windowA : WindowData :=
  { windowId := "win-1", liveViewUrl := "https://live.example/view" }

/-- A fully successful environment: every remote call resolves, the user is
already logged in, and the extraction response parses. -/
def baseEnv : Env :=
  { apiKey := some "key-123"
    stdinInput := ""
    createSession := Except.ok sessionA
    connect := Except.ok ()
    newPage := Except.ok ()
    gotoLogin := Except.ok ()
    windowInfo := Except.ok windowA
    loginCheckCall :=
      Except.ok (some (JsValue.obj [("isLoggedIn", JsValue.bool true)]))
    gotoTarget := Except.ok ()
    extractCall :=
      Except.ok (some (JsValue.obj [("companies", JsValue.arr [])]))
    browserClose := Except.ok ()
    terminate := Except.ok () }

/-- A run whose extraction response parses to an object with a non-empty
`error` field while everything else succeeds. -/
def envC1 : Env :=
  { baseEnv with extractCall := Except.ok (some (JsValue.obj [("error", JsValue.str "cannot extract")])) }

/-- A run whose login-check response reports a non-empty `error` field. -/
def envC1w : Env :=
  { baseEnv with loginCheckCall := Except.ok (some (JsValue.obj [("error", JsValue.str "detection failed")])) }

/-- A fully successful run in which closing the browser rejects. -/
def envC2w : Env :=
  { baseEnv with browserClose := Except.error "boom" }

/-- A run in which session creation returns no `cdpWsUrl`. -/
def envC2cex : Env :=
  { baseEnv with createSession := Except.ok sessionNoCdp }

/-- A run in which the caller supplies an existing profile id on stdin. -/
def envC3cex : Env :=
  { baseEnv with stdinInput := "profile-abc" }

/-- A fully successful run with no `AIRTOP_API_KEY` in the environment. -/
def envC4 : Env :=
  { baseEnv with apiKey := none }

/-- A run in which session creation returns no `cdpWsUrl` (for the
provisioning-failure scenario). -/
def envC7w : Env :=
  { baseEnv with createSession := Except.ok sessionNoCdp }

/-- A run whose login-check response reports an `error` message. -/
def envC8w : Env :=
  { baseEnv with loginCheckCall := Except.ok (some (JsValue.obj [("error", JsValue.str "could not classify page")])) }

/-- A run whose login-check response parses to `isLoggedIn = false` with no
`error` field. -/
def envC6w : Env :=
  { baseEnv with loginCheckCall := Except.ok (some (JsValue.obj [("isLoggedIn", JsValue.bool false)])) }

/-- A run whose login-check response parses to an object with no
`isLoggedIn` field at all (and no `error` field). -/
def envC10 : Env :=
  { baseEnv with loginCheckCall := Except.ok (some (JsValue.obj [("status", JsValue.str "unknown")])) }

/-- The parsed login-check value of `envC10`. -/
def vC10 : JsValue := JsValue.obj [("status", JsValue.str "unknown")]

/-- Property access on `null` yields nothing in the model (the script
treats it as a thrown `TypeError` at the call site). -/
theorem jsGet_null (k : String) : jsGet JsValue.null k = none := rfl

/-- A truthy property-access result rules out a `null` receiver. -/
theorem ne_null_of_truthy_get (v : JsValue) (k : String)
    (h : jsTruthyOpt (jsGet v k) = true) : v ≠ JsValue.null := by
  intro hv; subst hv; simp [jsGet, jsTruthyOpt] at h

/-- A present property rules out a `null` receiver. -/
theorem ne_null_of_get_some (v : JsValue) (k : String) (x : JsValue)
    (h : jsGet v k = some x) : v ≠ JsValue.null := by
  intro hv; subst hv; simp [jsGet] at h

/-- Reduction of the login-check phase for a parsed, non-`null` response:
the `error` field decides between aborting and branching on `isLoggedIn`. -/
theorem loginCheckPhase_not_null (env : Env) (s : SessionData)
    (w : WindowData) (v : JsValue)
    (hq : env.loginCheckCall = Except.ok (some v)) (hv : v ≠ JsValue.null) :
    loginCheckPhase env s w =
      (if jsTruthyOpt (jsGet v "error") then
        ([Event.promptContentCall s.id w.windowId IS_LOGGED_IN_PROMPT none],
         Outcome.failure (jsStringOfOpt (jsGet v "error")))
       else
        ([Event.promptContentCall s.id w.windowId IS_LOGGED_IN_PROMPT none]
           ++ (handoffPhase env s w
                 (jsTruthyOpt (jsGet v "isLoggedIn"))).1,
         (handoffPhase env s w (jsTruthyOpt (jsGet v "isLoggedIn"))).2)) := by
  cases v with
  | null => exact absurd rfl hv
  | bool b => simp [loginCheckPhase, hq]
  | num n => simp [loginCheckPhase, hq]
  | str t => simp [loginCheckPhase, hq]
  | arr xs => simp [loginCheckPhase, hq]
  | obj fs => simp [loginCheckPhase, hq]

/-- Computation of `handoffTaken` from a parsed, non-`null` response. -/
theorem handoffTaken_eq (env : Env) (v : JsValue)
    (hq : env.loginCheckCall = Except.ok (some v)) (hv : v ≠ JsValue.null) :
    handoffTaken env =
      (!(jsTruthyOpt (jsGet v "error"))
        && !(jsTruthyOpt (jsGet v "isLoggedIn"))) := by
  cases v with
  | null => exact absurd rfl hv
  | bool b => simp [handoffTaken, hq]
  | num n => simp [handoffTaken, hq]
  | str t => simp [handoffTaken, hq]
  | arr xs => simp [handoffTaken, hq]
  | obj fs => simp [handoffTaken, hq]

/-- Reduction of `run` when every stage before the login-check query
succeeds: the trace is the five set-up events followed by the login-check
phase. -/
theorem run_reaches_window (env : Env) (s : SessionData) (cdp : String)
    (w : WindowData) (h1 : env.createSession = Except.ok s)
    (h2 : s.cdpWsUrl = some cdp) (h3 : env.connect = Except.ok ())
    (h4 : env.newPage = Except.ok ()) (h5 : env.gotoLogin = Except.ok ())
    (h6 : env.windowInfo = Except.ok w) :
    run env =
      ([Event.createSessionCall (sessionConfigOf env),
        Event.connectCall cdp (authHeader env.apiKey), Event.newPageCall,
        Event.gotoCall LOGIN_URL, Event.getWindowInfoCall true]
        ++ (loginCheckPhase env s w).1,
       (loginCheckPhase env s w).2) := by
  simp [run, connectPhase, windowPhase, h1, h2, h3, h4, h5, h6]

/-- The clean-up block never suspends for the operator. -/
theorem await_not_mem_cleanup (env : Env) (sid : String) :
    Event.awaitHumanSignal ∉ (cleanup env sid).1 := by
  cases hb : env.browserClose with
  | error e => simp [cleanup, hb]
  | ok u =>
    cases ht : env.terminate with
    | error e => simp [cleanup, hb, ht]
    | ok u2 => simp [cleanup, hb, ht]

/-- The extraction phase never suspends for the operator. -/
theorem await_not_mem_extraction (env : Env) (s : SessionData)
    (w : WindowData) :
    Event.awaitHumanSignal ∉ (extractionPhase env s w).1 := by
  cases hg : env.gotoTarget with
  | error e => simp [extractionPhase, hg]
  | ok u =>
    cases hx : env.extractCall with
    | error e => simp [extractionPhase, hg, hx]
    | ok o =>
      cases o with
      | none => simp [extractionPhase, hg, hx]
      | some v =>
          simp [extractionPhase, hg, hx, await_not_mem_cleanup env s.id]

/-- The handoff phase suspends exactly when `isLoggedIn` was falsy. -/
theorem await_mem_handoff (env : Env) (s : SessionData) (w : WindowData)
    (b : Bool) :
    Event.awaitHumanSignal ∈ (handoffPhase env s w b).1 ↔ b = false := by
  cases b <;> simp [handoffPhase, await_not_mem_extraction env s w]

/-- The login-check phase suspends exactly when the parsed response is a
usable value with falsy `error` and falsy `isLoggedIn`. -/
theorem await_mem_loginCheck (env : Env) (s : SessionData) (w : WindowData) :
    Event.awaitHumanSignal ∈ (loginCheckPhase env s w).1 ↔
      handoffTaken env = true := by
  cases hq : env.loginCheckCall with
  | error e => simp [loginCheckPhase, handoffTaken, hq]
  | ok o =>
    cases o with
    | none => simp [loginCheckPhase, handoffTaken, hq]
    | some v =>
      cases v with
      | null => simp [loginCheckPhase, handoffTaken, hq]
      | bool b =>
          simp [loginCheckPhase, handoffTaken, hq, jsGet, jsTruthyOpt,
                await_mem_handoff]
      | num n =>
          simp [loginCheckPhase, handoffTaken, hq, jsGet, jsTruthyOpt,
                await_mem_handoff]
      | str t =>
          simp [loginCheckPhase, handoffTaken, hq, jsGet, jsTruthyOpt,
                await_mem_handoff]
      | arr xs =>
          simp [loginCheckPhase, handoffTaken, hq, jsGet, jsTruthyOpt,
                await_mem_handoff]
      | obj fs =>
          cases he : jsTruthyOpt (jsGet (JsValue.obj fs) "error") with
          | true => simp [loginCheckPhase, handoffTaken, hq, he]
          | false =>
              simp [loginCheckPhase, handoffTaken, hq, he, await_mem_handoff]

/-- The window phase suspends exactly when its set-up calls succeed and the
login check leads to the handoff branch. -/
theorem await_mem_window (env : Env) (s : SessionData) :
    Event.awaitHumanSignal ∈ (windowPhase env s).1 ↔
      (isOkB env.newPage && isOkB env.gotoLogin && isOkB env.windowInfo
        && handoffTaken env) = true := by
  cases h4 : env.newPage with
  | error e => simp [windowPhase, isOkB, h4]
  | ok u =>
    cases h5 : env.gotoLogin with
    | error e => simp [windowPhase, isOkB, h4, h5]
    | ok u2 =>
      cases h6 : env.windowInfo with
      | error e => simp [windowPhase, isOkB, h4, h5, h6]
      | ok w => simp [windowPhase, isOkB, h4, h5, h6, await_mem_loginCheck]

/-- Characterization over the whole run: the operator-suspension event
occurs in the trace exactly when the run reaches the login check and its
parsed response selects the handoff branch. -/
theorem await_mem_run (env : Env) :
    Event.awaitHumanSignal ∈ (run env).1 ↔
      (reachesLoginCheck env && handoffTaken env) = true := by
  cases h1 : env.createSession with
  | error e => simp [run, reachesLoginCheck, h1]
  | ok s =>
    cases h2 : s.cdpWsUrl with
    | none => simp [run, reachesLoginCheck, h1, h2]
    | some cdp =>
      cases h3 : env.connect with
      | error e => simp [run, connectPhase, reachesLoginCheck, isOkB, h1, h2, h3]
      | ok u =>
          simp [run, connectPhase, reachesLoginCheck, isOkB, h1, h2, h3,
                await_mem_window, Bool.and_assoc]

/-- C3 counterexample: with profile id `profile-abc` supplied on stdin, the
session-creation request still sets `persistProfile := true` alongside
`baseProfileId := some "profile-abc"`, so the claimed mutual exclusivity of
a supplied profile id and new-profile persistence fails on the code. -/
theorem c3_counterexample :
    (run envC3cex).1.head? =
      some (Event.createSessionCall
        { timeoutMinutes := 10, persistProfile := true,
          baseProfileId := some "profile-abc" }) := rfl

/-- C3 (amended): every run's first action is the session-creation request
with `timeoutMinutes = 10`, `persistProfile = true` unconditionally, and
`baseProfileId` set to the trimmed stdin input (absent when empty).  In
particular persistence is enabled when no profile id is supplied, but it is
also enabled when one is supplied. -/
theorem c3_amended_persist_always (env : Env) :
    (run env).1.head? =
      some (Event.createSessionCall
        { timeoutMinutes := 10, persistProfile := true,
          baseProfileId := parsedProfileInput env.stdinInput }) := by
  cases hc : env.createSession with
  | error e => simp [run, hc, sessionConfigOf]
  | ok s => cases hcdp : s.cdpWsUrl <;> simp [run, hc, hcdp, sessionConfigOf]

/-- C7: when session creation resolves but the response has no `cdpWsUrl`,
the run throws `Unable to get cdp url`: the trace consists of the
session-creation call alone (no connection, navigation, query, handoff or
teardown), and the process exits non-zero. -/
theorem c7_no_cdp_aborts (env : Env) (s : SessionData)
    (hc : env.createSession = Except.ok s) (hcdp : s.cdpWsUrl = none) :
    run env = ([Event.createSessionCall (sessionConfigOf env)],
               Outcome.failure "Unable to get cdp url") ∧
    exitCode (run env).2 = 1 := by
  constructor <;> simp [run, hc, hcdp, exitCode]

/-- C7 witness: the provisioning-failure run `envC7w` satisfies the
hypotheses of `c7_no_cdp_aborts`, so its trace stops at session creation
and it exits 1. -/
theorem c7_witness :
    envC7w.createSession = Except.ok sessionNoCdp ∧
    sessionNoCdp.cdpWsUrl = none ∧
    (run envC7w = ([Event.createSessionCall (sessionConfigOf envC7w)],
                   Outcome.failure "Unable to get cdp url") ∧
     exitCode (run envC7w).2 = 1) :=
  ⟨rfl, rfl, c7_no_cdp_aborts envC7w sessionNoCdp rfl rfl⟩

/-- C4 counterexample: with `AIRTOP_API_KEY` absent, the run still issues
the session-creation remote call (so at least one invocation reaches the
remote provider) and, all calls succeeding, even exits 0 — refuting the
claim that a missing credential fails fatally before any remote call. -/
theorem c4_counterexample :
    envC4.apiKey = none ∧
    Event.createSessionCall (sessionConfigOf envC4) ∈ (run envC4).1 ∧
    (run envC4).2 = Outcome.success := by
  refine ⟨rfl, ?_, rfl⟩
  decide

/-- C4 (amended): the script never checks `AIRTOP_API_KEY`.  With the key
absent the session-creation call is still issued, and when the run reaches
the puppeteer connection its auth header is the literal
`Bearer undefined`. -/
theorem c4_amended_no_key_check (env : Env) (hk : env.apiKey = none) :
    Event.createSessionCall (sessionConfigOf env) ∈ (run env).1 ∧
    (∀ s cdp, env.createSession = Except.ok s → s.cdpWsUrl = some cdp →
      Event.connectCall cdp "Bearer undefined" ∈ (run env).1) := by
  constructor
  · cases hc : env.createSession with
    | error e => simp [run, hc]
    | ok s => cases hcdp : s.cdpWsUrl <;> simp [run, hc, hcdp]
  · intro s cdp hc hcdp
    cases h3 : env.connect <;>
      simp [run, hc, hcdp, connectPhase, h3, authHeader, hk]

/-- C4 witness: `c4_amended_no_key_check` applied to the keyless run
`envC4`, which reaches the connection step. -/
theorem c4_witness :
    envC4.apiKey = none ∧
    envC4.createSession = Except.ok sessionA ∧
    sessionA.cdpWsUrl = some "wss://cdp.example" ∧
    Event.connectCall "wss://cdp.example" "Bearer undefined" ∈ (run envC4).1 :=
  ⟨rfl, rfl, rfl,
   (c4_amended_no_key_check envC4 rfl).2 sessionA "wss://cdp.example" rfl rfl⟩

/-- C5: whenever the login-check response parses to a value whose `error`
field is falsy and whose `isLoggedIn` field is the boolean `true`, the
human-handoff suspension never occurs anywhere in the run. -/
theorem c5_logged_in_no_handoff (env : Env) (v : JsValue)
    (hq : env.loginCheckCall = Except.ok (some v))
    (herr : jsTruthyOpt (jsGet v "error") = false)
    (hin : jsGet v "isLoggedIn" = some (JsValue.bool true)) :
    Event.awaitHumanSignal ∉ (run env).1 := by
  intro hmem
  have hv : v ≠ JsValue.null := ne_null_of_get_some v "isLoggedIn" _ hin
  have h := (await_mem_run env).mp hmem
  rw [handoffTaken_eq env v hq hv] at h
  simp [herr, hin, jsTruthyOpt, jsTruthy] at h

/-- C5 witness: `c5_logged_in_no_handoff` applied to the fully successful
logged-in run `baseEnv`. -/
theorem c5_witness :
    baseEnv.loginCheckCall =
      Except.ok (some (JsValue.obj [("isLoggedIn", JsValue.bool true)])) ∧
    jsTruthyOpt
      (jsGet (JsValue.obj [("isLoggedIn", JsValue.bool true)]) "error")
      = false ∧
    jsGet (JsValue.obj [("isLoggedIn", JsValue.bool true)]) "isLoggedIn"
      = some (JsValue.bool true) ∧
    Event.awaitHumanSignal ∉ (run baseEnv).1 :=
  ⟨rfl, rfl, rfl,
   c5_logged_in_no_handoff baseEnv
     (JsValue.obj [("isLoggedIn", JsValue.bool true)]) rfl rfl rfl⟩

/-- C10: once the run reaches a parsed, non-`null` login-check response
with falsy `error`, the handoff suspension occurs exactly when the parsed
`isLoggedIn` field is falsy — i.e. also when it is absent, `null`, `0` or
the empty string, not only when it is the boolean `false`; any truthy value
skips it. -/
theorem c10_falsy_isLoggedIn_triggers_handoff (env : Env) (s : SessionData)
    (cdp : String) (w : WindowData) (v : JsValue)
    (h1 : env.createSession = Except.ok s) (h2 : s.cdpWsUrl = some cdp)
    (h3 : env.connect = Except.ok ()) (h4 : env.newPage = Except.ok ())
    (h5 : env.gotoLogin = Except.ok ()) (h6 : env.windowInfo = Except.ok w)
    (hq : env.loginCheckCall = Except.ok (some v)) (hv : v ≠ JsValue.null)
    (herr : jsTruthyOpt (jsGet v "error") = false) :
    Event.awaitHumanSignal ∈ (run env).1 ↔
      jsTruthyOpt (jsGet v "isLoggedIn") = false := by
  rw [await_mem_run, handoffTaken_eq env v hq hv]
  have hr : reachesLoginCheck env = true := by
    simp [reachesLoginCheck, isOkB, h1, h2, h3, h4, h5, h6]
  rw [hr]
  simp [herr]

/-- C10 witness: in the run `envC10` the login-check response is an object
with no `isLoggedIn` field at all (and no `error` field), and the handoff
suspension does occur. -/
theorem c10_witness :
    envC10.loginCheckCall = Except.ok (some vC10) ∧
    jsGet vC10 "isLoggedIn" = none ∧
    jsTruthyOpt (jsGet vC10 "error") = false ∧
    Event.awaitHumanSignal ∈ (run envC10).1 :=
  ⟨rfl, rfl, rfl,
   (c10_falsy_isLoggedIn_triggers_handoff envC10 sessionA "wss://cdp.example"
      windowA vC10 rfl rfl rfl rfl rfl rfl rfl
      (fun h => JsValue.noConfusion h) rfl).mpr rfl⟩

/-- C6: when the login-check response parses with falsy `error` and
`isLoggedIn = false`, the run surfaces the live-view URL, suspends at the
handoff gate, and only then runs the extraction phase: the trace is exactly
the set-up events, the login query, `surfaceLiveView`, `awaitHumanSignal`
and the profile-id print, followed by the extraction phase, which contains
no further suspension and begins with the navigation to the target URL. -/
theorem c6_logged_out_handoff_then_extraction (env : Env) (s : SessionData)
    (cdp : String) (w : WindowData) (v : JsValue)
    (h1 : env.createSession = Except.ok s) (h2 : s.cdpWsUrl = some cdp)
    (h3 : env.connect = Except.ok ()) (h4 : env.newPage = Except.ok ())
    (h5 : env.gotoLogin = Except.ok ()) (h6 : env.windowInfo = Except.ok w)
    (hq : env.loginCheckCall = Except.ok (some v))
    (herr : jsTruthyOpt (jsGet v "error") = false)
    (hin : jsGet v "isLoggedIn" = some (JsValue.bool false)) :
    run env =
      ([Event.createSessionCall (sessionConfigOf env),
        Event.connectCall cdp (authHeader env.apiKey), Event.newPageCall,
        Event.gotoCall LOGIN_URL, Event.getWindowInfoCall true,
        Event.promptContentCall s.id w.windowId IS_LOGGED_IN_PROMPT none,
        Event.surfaceLiveView w.liveViewUrl, Event.awaitHumanSignal,
        Event.printSessionProfileId s.profileId]
        ++ (extractionPhase env s w).1,
       (extractionPhase env s w).2) ∧
    Event.awaitHumanSignal ∉ (extractionPhase env s w).1 ∧
    (extractionPhase env s w).1.head? = some (Event.gotoCall TARGET_URL) := by
  have hv : v ≠ JsValue.null := ne_null_of_get_some v "isLoggedIn" _ hin
  refine ⟨?_, await_not_mem_extraction env s w, ?_⟩
  · rw [run_reaches_window env s cdp w h1 h2 h3 h4 h5 h6,
        loginCheckPhase_not_null env s w v hq hv]
    simp only [herr, hin]
    simp [handoffPhase, jsTruthyOpt, jsTruthy]
  · cases hg : env.gotoTarget with
    | error e => simp [extractionPhase, hg]
    | ok u =>
      cases hx : env.extractCall with
      | error e => simp [extractionPhase, hg, hx]
      | ok o => cases o <;> simp [extractionPhase, hg, hx]

/-- C6 witness: `c6_logged_out_handoff_then_extraction` applied to the
logged-out run `envC6w`. -/
theorem c6_witness :
    envC6w.loginCheckCall =
      Except.ok (some (JsValue.obj [("isLoggedIn", JsValue.bool false)])) ∧
    (run envC6w =
      ([Event.createSessionCall (sessionConfigOf envC6w),
        Event.connectCall "wss://cdp.example" (authHeader envC6w.apiKey),
        Event.newPageCall, Event.gotoCall LOGIN_URL,
        Event.getWindowInfoCall true,
        Event.promptContentCall sessionA.id windowA.windowId
          IS_LOGGED_IN_PROMPT none,
        Event.surfaceLiveView windowA.liveViewUrl, Event.awaitHumanSignal,
        Event.printSessionProfileId sessionA.profileId]
        ++ (extractionPhase envC6w sessionA windowA).1,
       (extractionPhase envC6w sessionA windowA).2) ∧
     Event.awaitHumanSignal ∉ (extractionPhase envC6w sessionA windowA).1 ∧
     (extractionPhase envC6w sessionA windowA).1.head? =
       some (Event.gotoCall TARGET_URL)) :=
  ⟨rfl,
   c6_logged_out_handoff_then_extraction envC6w sessionA "wss://cdp.example"
     windowA (JsValue.obj [("isLoggedIn", JsValue.bool false)])
     rfl rfl rfl rfl rfl rfl rfl rfl rfl⟩

/-- C8: when the run reaches a login-check response whose parsed `error`
field is a non-empty string `m`, the raised error carries exactly `m`: the
run fails with message `m` verbatim. -/
theorem c8_detection_error_verbatim (env : Env) (s : SessionData)
    (cdp : String) (w : WindowData) (v : JsValue) (m : String)
    (h1 : env.createSession = Except.ok s) (h2 : s.cdpWsUrl = some cdp)
    (h3 : env.connect = Except.ok ()) (h4 : env.newPage = Except.ok ())
    (h5 : env.gotoLogin = Except.ok ()) (h6 : env.windowInfo = Except.ok w)
    (hq : env.loginCheckCall = Except.ok (some v))
    (herr : jsGet v "error" = some (JsValue.str m)) (hm : m ≠ "") :
    (run env).2 = Outcome.failure m := by
  have hv : v ≠ JsValue.null := ne_null_of_get_some v "error" _ herr
  rw [run_reaches_window env s cdp w h1 h2 h3 h4 h5 h6,
      loginCheckPhase_not_null env s w v hq hv]
  simp [herr, jsTruthyOpt, jsTruthy, hm, jsStringOfOpt, jsStringOf]

/-- C8 witness: `c8_detection_error_verbatim` applied to the run `envC8w`,
whose login-check response reports `could not classify page`. -/
theorem c8_witness :
    envC8w.loginCheckCall =
      Except.ok (some (JsValue.obj
        [("error", JsValue.str "could not classify page")])) ∧
    (run envC8w).2 = Outcome.failure "could not classify page" :=
  ⟨rfl,
   c8_detection_error_verbatim envC8w sessionA "wss://cdp.example" windowA
     (JsValue.obj [("error", JsValue.str "could not classify page")])
     "could not classify page" rfl rfl rfl rfl rfl rfl rfl rfl
     (by decide)⟩

/-- C1 counterexample: in the run `envC1` the extraction response parses to
an object whose `error` field is the non-empty string `cannot extract`, yet
the orchestrator raises nothing: it prints the response, proceeds to
teardown and exits 0 — the extraction query's `error` field is never
inspected, refuting the claim for the extraction query. -/
theorem c1_counterexample :
    envC1.extractCall =
      Except.ok (some (JsValue.obj [("error", JsValue.str "cannot extract")])) ∧
    jsTruthyOpt
      (jsGet (JsValue.obj [("error", JsValue.str "cannot extract")]) "error")
      = true ∧
    (run envC1).2 = Outcome.success ∧
    Event.printExtractionResponse ∈ (run envC1).1 ∧
    Event.browserCloseCall ∈ (run envC1).1 := by
  refine ⟨rfl, rfl, rfl, ?_, ?_⟩ <;> decide

/-- C1 (amended): only the login-check query's parsed `error` field is
authoritative: when it is truthy the run raises that error (coerced to a
string) and stops — the trace ends at the login-check query, with no
handoff, extraction or teardown events — and the process exits 1.  The
extraction query's parsed `error` field is not checked. -/
theorem c1_amended_login_error_aborts (env : Env) (s : SessionData)
    (cdp : String) (w : WindowData) (v : JsValue)
    (h1 : env.createSession = Except.ok s) (h2 : s.cdpWsUrl = some cdp)
    (h3 : env.connect = Except.ok ()) (h4 : env.newPage = Except.ok ())
    (h5 : env.gotoLogin = Except.ok ()) (h6 : env.windowInfo = Except.ok w)
    (hq : env.loginCheckCall = Except.ok (some v))
    (herr : jsTruthyOpt (jsGet v "error") = true) :
    run env =
      ([Event.createSessionCall (sessionConfigOf env),
        Event.connectCall cdp (authHeader env.apiKey), Event.newPageCall,
        Event.gotoCall LOGIN_URL, Event.getWindowInfoCall true,
        Event.promptContentCall s.id w.windowId IS_LOGGED_IN_PROMPT none],
       Outcome.failure (jsStringOfOpt (jsGet v "error"))) ∧
    exitCode (run env).2 = 1 := by
  have hv : v ≠ JsValue.null := ne_null_of_truthy_get v "error" herr
  have hrw := run_reaches_window env s cdp w h1 h2 h3 h4 h5 h6
  rw [loginCheckPhase_not_null env s w v hq hv, herr] at hrw
  refine ⟨?_, ?_⟩ <;> rw [hrw] <;> simp [exitCode]

/-- C1 witness: `c1_amended_login_error_aborts` applied to the run
`envC1w`, whose login-check response reports `detection failed`. -/
theorem c1_witness :
    envC1w.loginCheckCall =
      Except.ok (some (JsValue.obj
        [("error", JsValue.str "detection failed")])) ∧
    (run envC1w =
      ([Event.createSessionCall (sessionConfigOf envC1w),
        Event.connectCall "wss://cdp.example" (authHeader envC1w.apiKey),
        Event.newPageCall, Event.gotoCall LOGIN_URL,
        Event.getWindowInfoCall true,
        Event.promptContentCall sessionA.id windowA.windowId
          IS_LOGGED_IN_PROMPT none],
       Outcome.failure
         (jsStringOfOpt
           (jsGet (JsValue.obj [("error", JsValue.str "detection failed")])
             "error"))) ∧
     exitCode (run envC1w).2 = 1) :=
  ⟨rfl,
   c1_amended_login_error_aborts envC1w sessionA "wss://cdp.example" windowA
     (JsValue.obj [("error", JsValue.str "detection failed")])
     rfl rfl rfl rfl rfl rfl rfl rfl⟩

/-- C9: the extraction phase first navigates the window to the target URL;
when the navigation resolves, the very next event is the page query
carrying the extraction prompt and `followPaginationLinks := true`; and the
extraction prompt literally carries the output-schema contract (it is the
natural-language intro followed by the schema text). -/
theorem c9_extraction_navigates_then_queries (env : Env) (s : SessionData)
    (w : WindowData) (hg : env.gotoTarget = Except.ok ()) :
    (extractionPhase env s w).1.take 2 =
      [Event.gotoCall TARGET_URL,
       Event.promptContentCall s.id w.windowId EXTRACT_DATA_PROMPT
         (some true)] ∧
    (extractionPhase env s w).1.head? = some (Event.gotoCall TARGET_URL) ∧
    EXTRACT_DATA_PROMPT = EXTRACT_PROMPT_INTRO ++ EXTRACT_OUTPUT_SCHEMA := by
  refine ⟨?_, ?_, rfl⟩ <;>
    cases hx : env.extractCall with
    | error e => simp [extractionPhase, hg, hx]
    | ok o => cases o <;> simp [extractionPhase, hg, hx]

/-- C9 witness: `c9_extraction_navigates_then_queries` applied to the fully
successful run `baseEnv`. -/
theorem c9_witness :
    baseEnv.gotoTarget = Except.ok () ∧
    ((extractionPhase baseEnv sessionA windowA).1.take 2 =
      [Event.gotoCall TARGET_URL,
       Event.promptContentCall sessionA.id windowA.windowId
         EXTRACT_DATA_PROMPT (some true)] ∧
     (extractionPhase baseEnv sessionA windowA).1.head? =
       some (Event.gotoCall TARGET_URL) ∧
     EXTRACT_DATA_PROMPT = EXTRACT_PROMPT_INTRO ++ EXTRACT_OUTPUT_SCHEMA) :=
  ⟨rfl, c9_extraction_navigates_then_queries baseEnv sessionA windowA rfl⟩

/-- The clean-up block always issues the browser-close call (even when the
close itself then rejects). -/
theorem browserClose_mem_cleanup (env : Env) (sid : String) :
    Event.browserCloseCall ∈ (cleanup env sid).1 := by
  cases hb : env.browserClose with
  | error e => simp [cleanup, hb]
  | ok u =>
    cases ht : env.terminate with
    | error e => simp [cleanup, hb, ht]
    | ok u2 => simp [cleanup, hb, ht]

/-- The clean-up block issues the browser-close call exactly once. -/
theorem browserClose_countP_cleanup (env : Env) (sid : String) :
    (cleanup env sid).1.countP isBrowserCloseEvent = 1 := by
  cases hb : env.browserClose with
  | error e => simp [cleanup, hb, isBrowserCloseEvent]
  | ok u =>
    cases ht : env.terminate with
    | error e => simp [cleanup, hb, ht, isBrowserCloseEvent]
    | ok u2 => simp [cleanup, hb, ht, isBrowserCloseEvent]

/-- The extraction phase reaches clean-up exactly when the target
navigation resolves and the extraction response parses. -/
theorem browserClose_mem_extraction (env : Env) (s : SessionData)
    (w : WindowData) :
    Event.browserCloseCall ∈ (extractionPhase env s w).1 ↔
      (isOkB env.gotoTarget && extractParses env) = true := by
  cases hg : env.gotoTarget with
  | error e => simp [extractionPhase, isOkB, hg]
  | ok u =>
    cases hx : env.extractCall with
    | error e => simp [extractionPhase, extractParses, isOkB, hg, hx]
    | ok o =>
      cases o with
      | none => simp [extractionPhase, extractParses, isOkB, hg, hx]
      | some v =>
          simp [extractionPhase, extractParses, isOkB, hg, hx,
                browserClose_mem_cleanup env s.id]

/-- Count version of `browserClose_mem_extraction` on the successful
path. -/
theorem browserClose_countP_extraction (env : Env) (s : SessionData)
    (w : WindowData) (hg : env.gotoTarget = Except.ok ()) (v : JsValue)
    (hx : env.extractCall = Except.ok (some v)) :
    (extractionPhase env s w).1.countP isBrowserCloseEvent = 1 := by
  simp [extractionPhase, hg, hx, isBrowserCloseEvent,
        browserClose_countP_cleanup env s.id]

/-- The handoff phase reaches clean-up under the same condition for either
branch of the gate. -/
theorem browserClose_mem_handoff (env : Env) (s : SessionData)
    (w : WindowData) (b : Bool) :
    Event.browserCloseCall ∈ (handoffPhase env s w b).1 ↔
      (isOkB env.gotoTarget && extractParses env) = true := by
  cases b <;> simp [handoffPhase, browserClose_mem_extraction]

/-- Count version of `browserClose_mem_handoff` on the successful path. -/
theorem browserClose_countP_handoff (env : Env) (s : SessionData)
    (w : WindowData) (b : Bool) (hg : env.gotoTarget = Except.ok ())
    (v : JsValue) (hx : env.extractCall = Except.ok (some v)) :
    (handoffPhase env s w b).1.countP isBrowserCloseEvent = 1 := by
  cases b <;>
    simp [handoffPhase, isBrowserCloseEvent, List.countP_append,
          browserClose_countP_extraction env s w hg v hx]

/-- The login-check phase reaches clean-up exactly when the response
checks out and the extraction stage succeeds. -/
theorem browserClose_mem_loginCheck (env : Env) (s : SessionData)
    (w : WindowData) :
    Event.browserCloseCall ∈ (loginCheckPhase env s w).1 ↔
      (loginChecksOut env && (isOkB env.gotoTarget && extractParses env))
        = true := by
  cases hq : env.loginCheckCall with
  | error e => simp [loginCheckPhase, loginChecksOut, hq]
  | ok o =>
    cases o with
    | none => simp [loginCheckPhase, loginChecksOut, hq]
    | some v =>
      cases v with
      | null => simp [loginCheckPhase, loginChecksOut, hq]
      | bool b =>
          simp [loginCheckPhase, loginChecksOut, hq, jsGet, jsTruthyOpt,
                browserClose_mem_handoff]
      | num n =>
          simp [loginCheckPhase, loginChecksOut, hq, jsGet, jsTruthyOpt,
                browserClose_mem_handoff]
      | str t =>
          simp [loginCheckPhase, loginChecksOut, hq, jsGet, jsTruthyOpt,
                browserClose_mem_handoff]
      | arr xs =>
          simp [loginCheckPhase, loginChecksOut, hq, jsGet, jsTruthyOpt,
                browserClose_mem_handoff]
      | obj fs =>
          cases he : jsTruthyOpt (jsGet (JsValue.obj fs) "error") with
          | true => simp [loginCheckPhase, loginChecksOut, hq, he]
          | false =>
              simp [loginCheckPhase, loginChecksOut, hq, he,
                    browserClose_mem_handoff]

/-- Count version of `browserClose_mem_loginCheck` on the successful
path. -/
theorem browserClose_countP_loginCheck (env : Env) (s : SessionData)
    (w : WindowData) (v : JsValue)
    (hq : env.loginCheckCall = Except.ok (some v)) (hv : v ≠ JsValue.null)
    (herr : jsTruthyOpt (jsGet v "error") = false)
    (hg : env.gotoTarget = Except.ok ()) (v2 : JsValue)
    (hx : env.extractCall = Except.ok (some v2)) :
    (loginCheckPhase env s w).1.countP isBrowserCloseEvent = 1 := by
  rw [loginCheckPhase_not_null env s w v hq hv]
  simp [herr, isBrowserCloseEvent,
        browserClose_countP_handoff env s w _ hg v2 hx]

/-- Over the whole run: the browser-close call appears in the trace exactly
when every pipeline stage before clean-up succeeded. -/
theorem browserClose_mem_run (env : Env) :
    Event.browserCloseCall ∈ (run env).1 ↔ reachesCleanup env = true := by
  cases h1 : env.createSession with
  | error e => simp [run, reachesCleanup, reachesLoginCheck, h1]
  | ok s =>
    cases h2 : s.cdpWsUrl with
    | none => simp [run, reachesCleanup, reachesLoginCheck, h1, h2]
    | some cdp =>
      cases h3 : env.connect with
      | error e =>
          simp [run, connectPhase, reachesCleanup, reachesLoginCheck, isOkB,
                h1, h2, h3]
      | ok u =>
        cases h4 : env.newPage with
        | error e =>
            simp [run, connectPhase, windowPhase, reachesCleanup,
                  reachesLoginCheck, isOkB, h1, h2, h3, h4]
        | ok u2 =>
          cases h5 : env.gotoLogin with
          | error e =>
              simp [run, connectPhase, windowPhase, reachesCleanup,
                    reachesLoginCheck, isOkB, h1, h2, h3, h4, h5]
          | ok u3 =>
            cases h6 : env.windowInfo with
            | error e =>
                simp [run, connectPhase, windowPhase, reachesCleanup,
                      reachesLoginCheck, isOkB, h1, h2, h3, h4, h5, h6]
            | ok w =>
                simp [run, connectPhase, windowPhase, reachesCleanup,
                      reachesLoginCheck, isOkB, h1, h2, h3, h4, h5, h6,
                      browserClose_mem_loginCheck, Bool.and_assoc]

/-- Any resolving call of unit type is the `ok ()` value. -/
theorem isOkB_unit_spec (x : Except String Unit) (h : isOkB x = true) :
    x = Except.ok () := by
  cases x with
  | error e => simp [isOkB] at h
  | ok u => cases u; rfl

/-- Any resolving call carries some value. -/
theorem isOkB_spec {α : Type} (x : Except String α) (h : isOkB x = true) :
    ∃ a, x = Except.ok a := by
  cases x with
  | error e => simp [isOkB] at h
  | ok a => exact ⟨a, rfl⟩

/-- Decomposition of `loginChecksOut`: the response resolved, parsed to a
non-`null` value, and its `error` field is falsy. -/
theorem loginChecksOut_spec (env : Env) (h : loginChecksOut env = true) :
    ∃ v, env.loginCheckCall = Except.ok (some v) ∧ v ≠ JsValue.null ∧
      jsTruthyOpt (jsGet v "error") = false := by
  cases hq : env.loginCheckCall with
  | error e => rw [loginChecksOut, hq] at h; simp at h
  | ok o =>
    rw [loginChecksOut, hq] at h
    cases o with
    | none => simp at h
    | some v =>
      cases v with
      | null => simp at h
      | bool b =>
          simp only [Bool.not_eq_true'] at h
          exact ⟨_, rfl, fun hh => JsValue.noConfusion hh, h⟩
      | num n =>
          simp only [Bool.not_eq_true'] at h
          exact ⟨_, rfl, fun hh => JsValue.noConfusion hh, h⟩
      | str t =>
          simp only [Bool.not_eq_true'] at h
          exact ⟨_, rfl, fun hh => JsValue.noConfusion hh, h⟩
      | arr xs =>
          simp only [Bool.not_eq_true'] at h
          exact ⟨_, rfl, fun hh => JsValue.noConfusion hh, h⟩
      | obj fs =>
          simp only [Bool.not_eq_true'] at h
          exact ⟨_, rfl, fun hh => JsValue.noConfusion hh, h⟩

/-- Decomposition of `extractParses`. -/
theorem extractParses_spec (env : Env) (h : extractParses env = true) :
    ∃ v, env.extractCall = Except.ok (some v) := by
  cases hx : env.extractCall with
  | error e => rw [extractParses, hx] at h; simp at h
  | ok o =>
    rw [extractParses, hx] at h
    cases o with
    | none => simp at h
    | some v => exact ⟨v, rfl⟩

/-- Decomposition of `reachesCleanup` into the success of every stage. -/
theorem reachesCleanup_spec (env : Env) (h : reachesCleanup env = true) :
    ∃ s cdp w v v2,
      env.createSession = Except.ok s ∧ s.cdpWsUrl = some cdp ∧
      env.connect = Except.ok () ∧ env.newPage = Except.ok () ∧
      env.gotoLogin = Except.ok () ∧ env.windowInfo = Except.ok w ∧
      env.loginCheckCall = Except.ok (some v) ∧ v ≠ JsValue.null ∧
      jsTruthyOpt (jsGet v "error") = false ∧
      env.gotoTarget = Except.ok () ∧
      env.extractCall = Except.ok (some v2) := by
  rw [reachesCleanup, reachesLoginCheck] at h
  simp only [Bool.and_eq_true] at h
  obtain ⟨⟨⟨⟨⟨⟨⟨hM, hC3⟩, hNP⟩, hGL⟩, hWI⟩, hLCO⟩, hGT⟩, hEP⟩ := h
  obtain ⟨v, hq, hv, herr⟩ := loginChecksOut_spec env hLCO
  obtain ⟨v2, hx⟩ := extractParses_spec env hEP
  obtain ⟨w, hw⟩ := isOkB_spec env.windowInfo hWI
  cases h1 : env.createSession with
  | error e => rw [h1] at hM; simp at hM
  | ok s =>
    rw [h1] at hM
    simp only [Option.isSome_iff_exists] at hM
    obtain ⟨cdp, h2⟩ := hM
    exact ⟨s, cdp, w, v, v2, rfl, h2, isOkB_unit_spec _ hC3,
           isOkB_unit_spec _ hNP, isOkB_unit_spec _ hGL, hw, hq, hv, herr,
           isOkB_unit_spec _ hGT, hx⟩

/-- Count version of `browserClose_mem_run` on the successful path. -/
theorem browserClose_countP_run (env : Env) (s : SessionData) (cdp : String)
    (w : WindowData) (v : JsValue) (v2 : JsValue)
    (h1 : env.createSession = Except.ok s) (h2 : s.cdpWsUrl = some cdp)
    (h3 : env.connect = Except.ok ()) (h4 : env.newPage = Except.ok ())
    (h5 : env.gotoLogin = Except.ok ()) (h6 : env.windowInfo = Except.ok w)
    (hq : env.loginCheckCall = Except.ok (some v)) (hv : v ≠ JsValue.null)
    (herr : jsTruthyOpt (jsGet v "error") = false)
    (hg : env.gotoTarget = Except.ok ())
    (hx : env.extractCall = Except.ok (some v2)) :
    (run env).1.countP isBrowserCloseEvent = 1 := by
  rw [run_reaches_window env s cdp w h1 h2 h3 h4 h5 h6]
  simp [isBrowserCloseEvent, List.countP_append,
        browserClose_countP_loginCheck env s w v hq hv herr hg v2 hx]

/-- C2 (amended): teardown is not a finalizer.  The browser-close call
appears in the trace exactly when every pipeline stage before clean-up
succeeded — so on every fatal-error path before clean-up, teardown is
skipped entirely; on that fully successful path it is issued exactly once;
and when teardown itself then fails, the process exits 1 with the teardown
error even though no pipeline stage failed (a teardown failure does change
the reported exit status, from the 0 the run would otherwise report). -/
theorem c2_teardown_only_after_full_success (env : Env) :
    (Event.browserCloseCall ∈ (run env).1 ↔ reachesCleanup env = true) ∧
    (reachesCleanup env = true →
       (run env).1.countP isBrowserCloseEvent = 1) ∧
    (∀ e, reachesCleanup env = true → env.browserClose = Except.error e →
       (run env).2 = Outcome.failure e ∧ exitCode (run env).2 = 1) := by
  refine ⟨browserClose_mem_run env, ?_, ?_⟩
  · intro h
    obtain ⟨s, cdp, w, v, v2, h1, h2, h3, h4, h5, h6, hq, hv, herr, hg, hx⟩ :=
      reachesCleanup_spec env h
    exact browserClose_countP_run env s cdp w v v2 h1 h2 h3 h4 h5 h6 hq hv
      herr hg hx
  · intro e h hb
    obtain ⟨s, cdp, w, v, v2, h1, h2, h3, h4, h5, h6, hq, hv, herr, hg, hx⟩ :=
      reachesCleanup_spec env h
    rw [run_reaches_window env s cdp w h1 h2 h3 h4 h5 h6,
        loginCheckPhase_not_null env s w v hq hv]
    simp only [herr]
    simp [handoffPhase, extractionPhase, hg, hx, cleanup, hb, exitCode]

/-- C2 counterexample: the run `envC2cex` fails fatally (provisioning
returns no `cdpWsUrl`, exit code 1), yet neither the browser-close nor the
session-terminate call is ever issued — teardown is not invoked on this
fatal-error path, refuting the claim that it runs exactly once per run. -/
theorem c2_counterexample :
    exitCode (run envC2cex).2 = 1 ∧
    (run envC2cex).1.countP isBrowserCloseEvent = 0 ∧
    (run envC2cex).1.countP isTerminateEvent = 0 :=
  ⟨rfl, rfl, rfl⟩

/-- C2 witness: in the run `envC2w` every pipeline stage succeeds, teardown
is issued exactly once, its browser-close rejects with `boom`, and the
process exits 1 with that error instead of the 0 of a successful run. -/
theorem c2_witness :
    reachesCleanup envC2w = true ∧
    envC2w.browserClose = Except.error "boom" ∧
    (run envC2w).1.countP isBrowserCloseEvent = 1 ∧
    ((run envC2w).2 = Outcome.failure "boom" ∧
     exitCode (run envC2w).2 = 1) :=
  ⟨rfl, rfl, (c2_teardown_only_after_full_success envC2w).2.1 rfl,
   (c2_teardown_only_after_full_success envC2w).2.2 "boom" rfl rfl⟩
